import Mathlib

/-!
Verification of the product-resolution pipeline of `src/app.py`
(class `TargetScraper`): `get_target_api_data`, `extract_from_page`,
`_parse_api_response`, `_parse_html_response`, `_extract_from_jsonld`,
`_extract_from_page_data`, `_extract_fallback_images`,
`_create_base_record`, `_create_invalid_tcin_record`.

The Python values flowing through the pipeline (parsed JSON payloads and
the fields of the result dict) are modelled by the inductive type `Json`;
numbers are modelled as integers.  Operations that can raise a Python
exception (`x[k]`, `'k' in x`, `len`, slicing) return `Option`, `none`
standing for the raised exception; each modelled function catches
exceptions exactly where the source does.  The transport layer
(`requests.Session.get`) is modelled by an environment mapping the index
of each outbound request to its outcome (a status code and body, or a
raised `requests.RequestException`); the pipeline functions additionally
return the number of requests they consumed.  The regex/`json.loads`
scanning of an HTML page is abstracted by `HtmlPayload`, which records,
for one fixed page text, exactly the artifacts those scans produce:
the parsed JSON-LD blocks, the parsed `window.__*__` data blocks, the
first match of each title pattern and the matches of each price pattern.
-/

namespace App

/-- Python values appearing in parsed JSON payloads and record fields. -/
inductive Json where
  | null
  | bool (b : Bool)
  | num (n : Int)
  | str (s : String)
  | arr (elems : List Json)
  | obj (fields : List (String × Json))
deriving Repr

mutual

def Json.beq : Json → Json → Bool
  | .null, .null => true
  | .bool a, .bool b => a == b
  | .num a, .num b => a == b
  | .str a, .str b => a == b
  | .arr a, .arr b => Json.beqList a b
  | .obj a, .obj b => Json.beqFields a b
  | _, _ => false

def Json.beqList : List Json → List Json → Bool
  | [], [] => true
  | a :: as, b :: bs => Json.beq a b && Json.beqList as bs
  | _, _ => false

def Json.beqFields : List (String × Json) → List (String × Json) → Bool
  | [], [] => true
  | (k, a) :: as, (l, b) :: bs => k == l && Json.beq a b && Json.beqFields as bs
  | _, _ => false

end

instance : BEq Json := ⟨Json.beq⟩

mutual

theorem Json.beq_iff : ∀ a b : Json, Json.beq a b = true ↔ a = b
  | .null, b => by cases b <;> simp [Json.beq]
  | .bool x, b => by cases b <;> simp [Json.beq]
  | .num x, b => by cases b <;> simp [Json.beq]
  | .str x, b => by cases b <;> simp [Json.beq]
  | .arr xs, b => by
      cases b <;> simp [Json.beq]
      exact Json.beqList_iff xs _
  | .obj fs, b => by
      cases b <;> simp [Json.beq]
      exact Json.beqFields_iff fs _

theorem Json.beqList_iff : ∀ a b : List Json, Json.beqList a b = true ↔ a = b
  | [], b => by cases b <;> simp [Json.beqList]
  | x :: xs, b => by
      cases b with
      | nil => simp [Json.beqList]
      | cons y ys =>
          simp only [Json.beqList, Bool.and_eq_true, List.cons.injEq]
          rw [Json.beq_iff, Json.beqList_iff]

theorem Json.beqFields_iff :
    ∀ a b : List (String × Json), Json.beqFields a b = true ↔ a = b
  | [], b => by cases b <;> simp [Json.beqFields]
  | (k, x) :: xs, b => by
      cases b with
      | nil => simp [Json.beqFields]
      | cons y ys =>
          obtain ⟨l, v⟩ := y
          simp only [Json.beqFields, Bool.and_eq_true, List.cons.injEq,
            Prod.mk.injEq, beq_iff_eq]
          rw [Json.beq_iff, Json.beqFields_iff]

end

instance : DecidableEq Json := fun a b =>
  decidable_of_iff (Json.beq a b = true) (Json.beq_iff a b)

/-- Python truthiness of a value (`if value:`). -/
def Json.truthy : Json → Bool
  | .null => false
  | .bool b => b
  | .num n => n != 0
  | .str s => s != ""
  | .arr xs => !xs.isEmpty
  | .obj fs => !fs.isEmpty

/-- `sub in s` on Python strings: `sub` occurs as a contiguous substring. -/
def strContainsAux (needle : List Char) : List Char → Bool
  | [] => needle.isEmpty
  | c :: rest => needle.isPrefixOf (c :: rest) || strContainsAux needle rest

def strContains (s sub : String) : Bool :=
  strContainsAux sub.toList s.toList

/-- Membership in a dict modelled as an association list (`k in d` /
`d.get(k)`); JSON objects produced by `json.loads` have unique keys. -/
def Json.lookup (k : String) : Json → Option Json
  | .obj fs => fs.lookup k
  | _ => none

/-- `d.get(k, default)` on a value known to be a dict. -/
def Json.dget (j : Json) (k : String) (dflt : Json) : Json :=
  (j.lookup k).getD dflt

/-- `k in d` on a value known to be a dict. -/
def Json.hasKey (j : Json) (k : String) : Bool :=
  (j.lookup k).isSome

/-- `'k' in x` for arbitrary `x`; `none` models a raised `TypeError`
(membership on a number, boolean or `None`). -/
def Json.pyIn (k : String) : Json → Option Bool
  | .obj fs => some (fs.any (fun kv => kv.1 == k))
  | .arr xs => some (xs.any (fun v => v == Json.str k))
  | .str s => some (strContains s k)
  | _ => none

/-- `x[k]` with a string key; `none` models a raised exception
(`KeyError` on a missing key, `TypeError` on any non-dict). -/
def Json.pyGetItem (j : Json) (k : String) : Option Json :=
  match j with
  | .obj fs => fs.lookup k
  | _ => none

/-- `len(x)`; `none` models `TypeError` on numbers, booleans and `None`. -/
def Json.pyLen : Json → Option Nat
  | .str s => some s.length
  | .arr xs => some xs.length
  | .obj fs => some fs.length
  | _ => none

/-- `x[0]`; `none` models the raised exception (`IndexError` on an empty
sequence, `KeyError` on a dict, `TypeError` otherwise). -/
def Json.pyItem0 : Json → Option Json
  | .arr (x :: _) => some x
  | .str s => if s.length > 0 then some (Json.str (s.take 1)) else none
  | _ => none

/-- `x[:2]` followed by iteration; for a string, iteration yields its
characters as one-character strings.  `none` models `TypeError`. -/
def Json.pySlice2 : Json → Option (List Json)
  | .arr xs => some (xs.take 2)
  | .str s => some ((s.toList.take 2).map (fun c => Json.str (String.singleton c)))
  | _ => none

def pyQuote : String := String.singleton (Char.ofNat 39)

mutual

/-- Python `repr` of a value, as used when rendering containers. -/
def Json.pyRepr : Json → String
  | .null => "None"
  | .bool true => "True"
  | .bool false => "False"
  | .num n => toString n
  | .str s => pyQuote ++ s ++ pyQuote
  | .arr xs => "[" ++ String.intercalate ", " (Json.pyReprList xs) ++ "]"
  | .obj fs => "\x7b" ++ String.intercalate ", " (Json.pyReprFields fs) ++ "\x7d"

def Json.pyReprList : List Json → List String
  | [] => []
  | x :: xs => Json.pyRepr x :: Json.pyReprList xs

def Json.pyReprFields : List (String × Json) → List String
  | [] => []
  | (k, v) :: fs =>
      (pyQuote ++ k ++ pyQuote ++ ": " ++ Json.pyRepr v) :: Json.pyReprFields fs

end

/-- Python `str(x)` / f-string rendering. -/
def Json.pyStr : Json → String
  | .str s => s
  | j => j.pyRepr

/-- Whether `x[:50]` succeeds (strings and lists slice; numbers, booleans,
`None` and dicts raise `TypeError`). -/
def Json.sliceable : Json → Bool
  | .str _ => true
  | .arr _ => true
  | _ => false

/-- The canonical output record of the pipeline (`_create_base_record`
documents the schema).  `TCIN` and `Status` are only ever assigned string
values by the source, the remaining fields can be assigned arbitrary
payload values. -/
structure Record where
  TCIN : String
  Title : Json
  Brand : Json
  Regular_Price : Json
  Sale_Price : Json
  Number_of_Reviews : Json
  Star_Rating : Json
  Image_1_URL : Json
  Image_2_URL : Json
  Image_3_URL : Json
  Status : String
deriving Repr, DecidableEq

/-- `TargetScraper._create_base_record`. -/
def create_base_record (tcin : String) : Record where
  TCIN := tcin
  Title := Json.str "N/A"
  Brand := Json.str "N/A"
  Regular_Price := Json.str "N/A"
  Sale_Price := Json.str "N/A"
  Number_of_Reviews := Json.str "N/A"
  Star_Rating := Json.str "N/A"
  Image_1_URL := Json.str "N/A"
  Image_2_URL := Json.str "N/A"
  Image_3_URL := Json.str "N/A"
  Status := "Success"

/-- `TargetScraper._create_invalid_tcin_record`. -/
def create_invalid_tcin_record (tcin reason : String) : Record where
  TCIN := tcin
  Title := Json.str "TCIN not valid"
  Brand := Json.str "N/A"
  Regular_Price := Json.str "N/A"
  Sale_Price := Json.str "N/A"
  Number_of_Reviews := Json.str "N/A"
  Star_Rating := Json.str "N/A"
  Image_1_URL := Json.str "N/A"
  Image_2_URL := Json.str "N/A"
  Image_3_URL := Json.str "N/A"
  Status := "Invalid: " ++ reason

/-! ### `_parse_api_response` (src/app.py lines 174-300)

The body of `_parse_api_response` is wrapped in one `try` whose handler
returns `None`; every helper phase below therefore returns `Option`,
`none` meaning either an exception raised inside the phase or an early
`return None`, and the phases are sequenced monadically. -/

/-- Lines 180-192: locate the `product` object (`data -> product` or a
top-level `product`), or `return None`. -/
def productOf (data : Json) : Option Json :=
  match Json.pyIn "data" data with
  | none => none
  | some true =>
      match data.pyGetItem "data" with
      | none => none
      | some d =>
          match Json.pyIn "product" d with
          | none => none
          | some true => d.pyGetItem "product"
          | some false =>
              match Json.pyIn "product" data with
              | none => none
              | some true => data.pyGetItem "product"
              | some false => none
  | some false =>
      match Json.pyIn "product" data with
      | none => none
      | some true => data.pyGetItem "product"
      | some false => none

/-- Lines 198-201: title from `item.product_description.title`. -/
def descPart (r : Record) (item : Json) : Option Record :=
  match Json.pyIn "product_description" item with
  | none => none
  | some false => some r
  | some true =>
      match item.pyGetItem "product_description" with
      | none => none
      | some desc =>
          match Json.pyIn "title" desc with
          | none => none
          | some false => some r
          | some true =>
              match desc.pyGetItem "title" with
              | none => none
              | some t => some { r with Title := t }

/-- Lines 204-209: brand from `item.product_classification.product_type.name`. -/
def classPart (r : Record) (item : Json) : Option Record :=
  match Json.pyIn "product_classification" item with
  | none => none
  | some false => some r
  | some true =>
      match item.pyGetItem "product_classification" with
      | none => none
      | some c =>
          match Json.pyIn "product_type" c with
          | none => none
          | some false => some r
          | some true =>
              match c.pyGetItem "product_type" with
              | none => none
              | some pt =>
                  match Json.pyIn "name" pt with
                  | none => none
                  | some false => some r
                  | some true =>
                      match pt.pyGetItem "name" with
                      | none => none
                      | some b => some { r with Brand := b }

/-- Lines 212-215: brand from `item.product_vendors[0].vendor_name`. -/
def vendorPart (r : Record) (item : Json) : Option Record :=
  match Json.pyIn "product_vendors" item with
  | none => none
  | some false => some r
  | some true =>
      match item.pyGetItem "product_vendors" with
      | none => none
      | some pv =>
          match pv.pyLen with
          | none => none
          | some l =>
              if l > 0 then
                match pv.pyItem0 with
                | none => none
                | some vendor =>
                    match Json.pyIn "vendor_name" vendor with
                    | none => none
                    | some false => some r
                    | some true =>
                        match vendor.pyGetItem "vendor_name" with
                        | none => none
                        | some b => some { r with Brand := b }
              else some r

/-- Lines 195-215: the `item` section (title and brand). -/
def itemPhase (r : Record) (product : Json) : Option Record :=
  match Json.pyIn "item" product with
  | none => none
  | some false => some r
  | some true =>
      match product.pyGetItem "item" with
      | none => none
      | some item =>
          if item.truthy then
            match descPart r item with
            | none => none
            | some r1 =>
                match classPart r1 item with
                | none => none
                | some r2 => vendorPart r2 item
          else some r

/-- Lines 221-223: `Sale_Price` from a truthy `current_retail`
(`hasCur` is the already-evaluated `'current_retail' in price_data`). -/
def priceCurrentPart (r : Record) (price_data : Json) (hasCur : Bool) : Option Record :=
  if hasCur then
    match price_data.pyGetItem "current_retail" with
    | none => none
    | some v =>
        if v.truthy then some { r with Sale_Price := Json.str ("$" ++ v.pyStr) }
        else some r
  else some r

/-- Lines 225-230: `Regular_Price` from a truthy `regular_retail`, else
copied from `Sale_Price` when `current_retail` is present. -/
def priceRegularPart (r : Record) (price_data : Json) (hasCur : Bool) : Option Record :=
  match Json.pyIn "regular_retail" price_data with
  | none => none
  | some true =>
      match price_data.pyGetItem "regular_retail" with
      | none => none
      | some v =>
          if v.truthy then some { r with Regular_Price := Json.str ("$" ++ v.pyStr) }
          else if hasCur then some { r with Regular_Price := r.Sale_Price }
          else some r
  | some false =>
      if hasCur then some { r with Regular_Price := r.Sale_Price } else some r

/-- Lines 232-239: overwrite `Sale_Price` with the min-max price range
when both `current_retail_min` and `current_retail_max` are present. -/
def priceMinMaxPart (r : Record) (price_data : Json) : Option Record :=
  match Json.pyIn "current_retail_min" price_data with
  | none => none
  | some false => some r
  | some true =>
      match Json.pyIn "current_retail_max" price_data with
      | none => none
      | some false => some r
      | some true =>
          match price_data.pyGetItem "current_retail_min" with
          | none => none
          | some mn =>
              match price_data.pyGetItem "current_retail_max" with
              | none => none
              | some mx =>
                  if mn == mx then some { r with Sale_Price := Json.str ("$" ++ mn.pyStr) }
                  else some { r with Sale_Price := Json.str ("$" ++ mn.pyStr ++ " - $" ++ mx.pyStr) }

/-- Lines 217-239: the pricing section. -/
def pricePhase (r : Record) (product : Json) : Option Record :=
  match Json.pyIn "price" product with
  | none => none
  | some false => some r
  | some true =>
      match product.pyGetItem "price" with
      | none => none
      | some price_data =>
          if !price_data.truthy then some r else
          match Json.pyIn "current_retail" price_data with
          | none => none
          | some hasCur =>
              match priceCurrentPart r price_data hasCur with
              | none => none
              | some r1 =>
                  match priceRegularPart r1 price_data hasCur with
                  | none => none
                  | some r2 => priceMinMaxPart r2 price_data

/-- Lines 248-252: review count (`hasRating` is the already-evaluated
`'rating' in stats`). -/
def ratingsCountPart (r : Record) (stats : Json) (hasRating : Bool) : Option Record :=
  if hasRating then
    match stats.pyGetItem "rating" with
    | none => none
    | some rating =>
        match Json.pyIn "count" rating with
        | none => none
        | some true =>
            match rating.pyGetItem "count" with
            | none => none
            | some c => some { r with Number_of_Reviews := Json.str c.pyStr }
        | some false =>
            match Json.pyIn "review_count" stats with
            | none => none
            | some true =>
                match stats.pyGetItem "review_count" with
                | none => none
                | some c => some { r with Number_of_Reviews := Json.str c.pyStr }
            | some false => some r
  else
    match Json.pyIn "review_count" stats with
    | none => none
    | some true =>
        match stats.pyGetItem "review_count" with
        | none => none
        | some c => some { r with Number_of_Reviews := Json.str c.pyStr }
    | some false => some r

/-- Lines 254-258: star rating. -/
def ratingsStarPart (r : Record) (stats : Json) (hasRating : Bool) : Option Record :=
  if hasRating then
    match stats.pyGetItem "rating" with
    | none => none
    | some rating =>
        match Json.pyIn "average" rating with
        | none => none
        | some true =>
            match rating.pyGetItem "average" with
            | none => none
            | some a => some { r with Star_Rating := Json.str a.pyStr }
        | some false =>
            match Json.pyIn "average_overall_rating" stats with
            | none => none
            | some true =>
                match stats.pyGetItem "average_overall_rating" with
                | none => none
                | some a => some { r with Star_Rating := Json.str a.pyStr }
            | some false => some r
  else
    match Json.pyIn "average_overall_rating" stats with
    | none => none
    | some true =>
        match stats.pyGetItem "average_overall_rating" with
        | none => none
        | some a => some { r with Star_Rating := Json.str a.pyStr }
    | some false => some r

/-- Lines 242-258: review count and star rating. -/
def ratingsPhase (r : Record) (product : Json) : Option Record :=
  match Json.pyIn "ratings_and_reviews" product with
  | none => none
  | some false => some r
  | some true =>
      match product.pyGetItem "ratings_and_reviews" with
      | none => none
      | some reviews =>
          if !reviews.truthy then some r else
          match Json.pyIn "statistics" reviews with
          | none => none
          | some false => some r
          | some true =>
              match reviews.pyGetItem "statistics" with
              | none => none
              | some stats =>
                  match Json.pyIn "rating" stats with
                  | none => none
                  | some hasRating =>
                      match ratingsCountPart r stats hasRating with
                      | none => none
                      | some r1 => ratingsStarPart r1 stats hasRating

/-- Assign `Image_2_URL`/`Image_3_URL` from the (at most two) alternate
image urls, skipping falsy entries; the source guard `i <= 3` is always
true because the enumeration starts at 2 over a 2-element slice. -/
def assignAlternates (r : Record) (alts : List Json) : Record :=
  match alts with
  | [] => r
  | [a] => if a.truthy then { r with Image_2_URL := a } else r
  | a :: b :: _ =>
      if a.truthy then
        if b.truthy then { r with Image_2_URL := a, Image_3_URL := b }
        else { r with Image_2_URL := a }
      else
        if b.truthy then { r with Image_3_URL := b } else r

/-- Lines 264-265 / 280-281: the primary image url. -/
def imagesPrimaryPart (r : Record) (images : Json) : Option Record :=
  match Json.pyIn "primary_image_url" images with
  | none => none
  | some false => some r
  | some true =>
      match images.pyGetItem "primary_image_url" with
      | none => none
      | some p => some { r with Image_1_URL := p }

/-- Lines 264-271 and 280-287 share this shape: primary image plus up to
two alternates from an `images` dict. -/
def imagesFrom (r : Record) (images : Json) : Option Record :=
  match imagesPrimaryPart r images with
  | none => none
  | some r1 =>
      match Json.pyIn "alternate_image_urls" images with
      | none => none
      | some false => some r1
      | some true =>
          match images.pyGetItem "alternate_image_urls" with
          | none => none
          | some alt =>
              if !alt.truthy then some r1 else
              match alt.pySlice2 with
              | none => none
              | some alts => some (assignAlternates r1 alts)

/-- Lines 261-287: images from `enrichment.images`, else from
`item.enrichment.images`. -/
def imagesPhase (r : Record) (product : Json) : Option Record :=
  match Json.pyIn "enrichment" product with
  | none => none
  | some hasEnr =>
      match (if hasEnr then
               match product.pyGetItem "enrichment" with
               | none => none
               | some e =>
                   match Json.pyIn "images" e with
                   | none => none
                   | some b => some (some b)
             else some none) with
      | none => none
      | some (some true) =>
          match product.pyGetItem "enrichment" with
          | none => none
          | some e =>
              match e.pyGetItem "images" with
              | none => none
              | some images => imagesFrom r images
      | some _ =>
          match Json.pyIn "item" product with
          | none => none
          | some false => some r
          | some true =>
              match product.pyGetItem "item" with
              | none => none
              | some item =>
                  match Json.pyIn "enrichment" item with
                  | none => none
                  | some false => some r
                  | some true =>
                      match item.pyGetItem "enrichment" with
                      | none => none
                      | some enrichment =>
                          match Json.pyIn "images" enrichment with
                          | none => none
                          | some false => some r
                          | some true =>
                              match enrichment.pyGetItem "images" with
                              | none => none
                              | some images => imagesFrom r images

/-! ### `_extract_fallback_images` (lines 302-329) -/

mutual

/-- `find_images_recursive`: depth-first collection of up to 3 image
urls (string values under a key containing `image`, containing `http`). -/
def find_images (acc : List String) (j : Json) : List String :=
  if acc.length ≥ 3 then acc else
  match j with
  | .obj fs => findImagesFields acc fs
  | .arr xs => findImagesItems acc xs
  | _ => acc

def findImagesFields (acc : List String) : List (String × Json) → List String
  | [] => acc
  | (k, v) :: rest =>
      match v with
      | .str s =>
          if strContains k.toLower "image" && strContains s "http" then
            if acc.contains s then findImagesFields acc rest
            else findImagesFields (acc ++ [s]) rest
          else findImagesFields acc rest
      | .obj _ => findImagesFields (find_images acc v) rest
      | .arr _ => findImagesFields (find_images acc v) rest
      | _ => findImagesFields acc rest

def findImagesItems (acc : List String) : List Json → List String
  | [] => acc
  | x :: rest => findImagesItems (find_images acc x) rest

end

/-- `_extract_fallback_images`: assign the first (up to) three collected
urls to the image fields.  Its internal `try` swallows exceptions, but no
operation in it can raise. -/
def extract_fallback_images (product : Json) (r : Record) : Record :=
  match (find_images [] product).take 3 with
  | [] => r
  | [a] => { r with Image_1_URL := Json.str a }
  | [a, b] => { r with Image_1_URL := Json.str a, Image_2_URL := Json.str b }
  | a :: b :: c :: _ =>
      { r with Image_1_URL := Json.str a, Image_2_URL := Json.str b,
               Image_3_URL := Json.str c }

/-- `_parse_api_response` assembled (lines 174-300): `none` is Python
`None`, returned on unexpected structure, a falsy product, any exception
(including the `result['Title'][:50]` rendering in the success log when
`Title` is unsliceable), or an unresolved title. -/
def parse_api_response (tcin : String) (data : Json) : Option Record :=
  (productOf data).bind fun product =>
  if !product.truthy then none else
  (itemPhase (create_base_record tcin) product).bind fun r1 =>
  (pricePhase r1 product).bind fun r2 =>
  (ratingsPhase r2 product).bind fun r3 =>
  (imagesPhase r3 product).bind fun r4 =>
  let r5 := if r4.Image_1_URL == Json.str "N/A" then extract_fallback_images product r4
            else r4
  if !r5.Title.sliceable then none
  else if r5.Title == Json.str "N/A" then none
  else some r5

/-! ### `_extract_from_jsonld` (lines 423-471)

The function mutates the shared `result` dict and returns `True` for an
accepted `@type == 'Product'` block.  Its `try` catches every exception
and returns `False`, but mutations made before the raise persist; the
parts below therefore return the (possibly partially updated) record
together with a flag, `false` standing for "raised".  Each recursive call
catches its own exceptions, so a raise never crosses a call boundary. -/

/-- Lines 434-439: brand (cannot raise). -/
def jsonldBrandPart (r : Record) (data : Json) : Record :=
  if data.hasKey "brand" then
    match data.dget "brand" Json.null with
    | .obj bfs => { r with Brand := (Json.obj bfs).dget "name" r.Brand }
    | brand => { r with Brand := Json.str brand.pyStr }
  else r

/-- Lines 444-447 and 449-452: `result['Regular_Price'] = f"${price}" if
not str(price).startswith('$') else str(price)` followed by
`result['Sale_Price'] = result['Regular_Price']`, guarded by `if price:`. -/
def jsonldSetPrices (r : Record) (price : Json) : Record :=
  if price.truthy then
    if (price.pyStr).startsWith "$" then
      { r with Regular_Price := Json.str price.pyStr, Sale_Price := Json.str price.pyStr }
    else
      { r with Regular_Price := Json.str ("$" ++ price.pyStr),
               Sale_Price := Json.str ("$" ++ price.pyStr) }
  else r

/-- Lines 441-452: offers; `offers[0].get` raises when the first list
element is not a dict (`false` models the raise). -/
def jsonldOffersPart (r : Record) (data : Json) : Record × Bool :=
  if data.hasKey "offers" then
    match data.dget "offers" Json.null with
    | .obj ofs => (jsonldSetPrices r ((Json.obj ofs).dget "price" (Json.str "")), true)
    | .arr (o :: _) =>
        match o with
        | .obj _ => (jsonldSetPrices r (o.dget "price" (Json.str "")), true)
        | _ => (r, false)
    | _ => (r, true)
  else (r, true)

/-- Lines 454-457: aggregate rating; `rating.get` raises when the rating
value is not a dict. -/
def jsonldRatingPart (r : Record) (data : Json) : Record × Bool :=
  if data.hasKey "aggregateRating" then
    match data.dget "aggregateRating" Json.null with
    | .obj rfs =>
        ({ r with Star_Rating := (Json.obj rfs).dget "ratingValue" r.Star_Rating,
                  Number_of_Reviews := (Json.obj rfs).dget "reviewCount" r.Number_of_Reviews },
         true)
    | _ => (r, false)
  else (r, true)

/-- Lines 459-465: images (cannot raise). -/
def jsonldImagePart (r : Record) (data : Json) : Record :=
  if data.hasKey "image" then
    match data.dget "image" Json.null with
    | .arr xs =>
        match xs.take 3 with
        | [] => r
        | [a] => { r with Image_1_URL := a }
        | [a, b] => { r with Image_1_URL := a, Image_2_URL := b }
        | a :: b :: c :: _ =>
            { r with Image_1_URL := a, Image_2_URL := b, Image_3_URL := c }
    | .str s => { r with Image_1_URL := Json.str s }
    | _ => r
  else r

/-- Lines 431-467: the `@type == 'Product'` body, in source order
(name, brand, offers, aggregateRating, image; then `return True`). -/
def jsonldProduct (r : Record) (data : Json) : Record × Bool :=
  match jsonldOffersPart (jsonldBrandPart { r with Title := data.dget "name" r.Title } data) data with
  | (r2, false) => (r2, false)
  | (r2, true) =>
      match jsonldRatingPart r2 data with
      | (r3, false) => (r3, false)
      | (r3, true) => (jsonldImagePart r3 data, true)

mutual

/-- `_extract_from_jsonld`. -/
def extract_from_jsonld (r : Record) : Json → Record × Bool
  | .arr xs => jsonldList r xs
  | .obj fs =>
      if (Json.obj fs).dget "@type" Json.null == Json.str "Product" then
        jsonldProduct r (Json.obj fs)
      else (r, false)
  | _ => (r, false)

/-- Lines 426-429: recurse over a JSON-LD list until a block is accepted,
threading the shared record. -/
def jsonldList (r : Record) : List Json → Record × Bool
  | [] => (r, false)
  | x :: xs =>
      match extract_from_jsonld r x with
      | (r1, true) => (r1, true)
      | (r1, false) => jsonldList r1 xs

end

/-! ### `_extract_from_page_data` (lines 473-510) -/

mutual

/-- Lines 479-493: `search_recursive`, a depth-first search returning the
first value stored under one of the target keys; falsy values returned by
a nested call are skipped by the `if result:` guards. -/
def search_recursive (keys : List String) : Json → Option Json
  | .obj fs => searchFields keys fs
  | .arr xs => searchItems keys xs
  | _ => none

def searchFields (keys : List String) : List (String × Json) → Option Json
  | [] => none
  | (k, v) :: rest =>
      if keys.contains k then some v
      else
        match (match v with
               | .obj _ => search_recursive keys v
               | .arr _ => search_recursive keys v
               | _ => none) with
        | some res => if res.truthy then some res else searchFields keys rest
        | none => searchFields keys rest

def searchItems (keys : List String) : List Json → Option Json
  | [] => none
  | x :: rest =>
      match search_recursive keys x with
      | some res => if res.truthy then some res else searchItems keys rest
      | none => searchItems keys rest

end

/-- The fields `_extract_from_page_data` may put into its `extracted`
dict (`Title` only for truthy strings, `Brand` for a truthy dict or
string result). -/
structure PageExtract where
  title : Option String
  brand : Option Json
deriving Repr, DecidableEq

/-- `_extract_from_page_data`; `none` is Python `None` (nothing
extracted; no operation in the body can raise). -/
def extract_from_page_data (data : Json) : Option PageExtract :=
  let titleRes := search_recursive ["title", "display_name", "product_name"] data
  let t : Option String :=
    match titleRes with
    | some (Json.str s) => if s != "" then some s else none
    | _ => none
  let brandRes := search_recursive ["brand", "manufacturer"] data
  let b : Option Json :=
    match brandRes with
    | some brand =>
        if brand.truthy then
          match brand with
          | .obj _ => some (brand.dget "name" (brand.dget "display_name" (Json.str "")))
          | .str s => some (Json.str s)
          | _ => none
        else none
    | none => none
  match t, b with
  | none, none => none
  | _, _ => some { title := t, brand := b }

/-! ### `_parse_html_response` (lines 331-421)

The regex scans and `json.loads` calls over the raw page text are
abstracted by `HtmlPayload`: for one fixed page text it records the
parsed JSON-LD script blocks (unparseable ones are skipped by the
source's `except json.JSONDecodeError: continue`), the parsed
`window.__TGT_DATA__/__INITIAL_STATE__/__APOLLO_STATE__` blocks in scan
order, the first `re.search` match of each of the three title patterns,
and the `re.findall` matches of each of the three price patterns. -/

structure HtmlPayload where
  /-- Whether one of the four error-page indicators occurs in the
  lowercased page text (lines 337-346). -/
  hasErrorIndicator : Bool
  jsonldBlocks : List Json
  dataBlocks : List Json
  titleMatches : List (Option String)
  priceMatches : List (List String)
deriving Repr

/-- `result.update(extracted)` for the `extracted` dict. -/
def applyUpdate (r : Record) (e : PageExtract) : Record :=
  let r1 := match e.title with
            | some t => { r with Title := Json.str t }
            | none => r
  match e.brand with
  | some b => { r1 with Brand := b }
  | none => r1

/-- Lines 367-378: scan the embedded data blocks, merging each non-empty
extraction into the shared record and returning as soon as the record
has a resolved title.  The `Bool` is `true` for an early `return`. -/
def dataBlocksLoop (r : Record) : List Json → Record × Bool
  | [] => (r, false)
  | d :: ds =>
      match extract_from_page_data d with
      | none => dataBlocksLoop r ds
      | some e =>
          let r1 := applyUpdate r e
          if !(r1.Title == Json.str "N/A") then (r1, true)
          else dataBlocksLoop r1 ds

/-- Lines 381-393: fallback title extraction; the first pattern match
that survives validation is written (truncated to 200 characters) and
the loop breaks. -/
def titlePatternsLoop (r : Record) : List (Option String) → Record
  | [] => r
  | none :: ps => titlePatternsLoop r ps
  | some m :: ps =>
      let title := m.trim
      if title.length > 10 && !(strContains title.toLower "target") then
        { r with Title := Json.str (title.take 200) }
      else titlePatternsLoop r ps

/-- Inner loop of lines 402-413: first float-parseable match.  Python
`float` acceptance is modelled by `floatOk`. -/
def floatOk (s : String) : Bool :=
  let t := s.trim
  let core := if t.startsWith "-" || t.startsWith "+" then t.drop 1 else t
  let parts := core.splitOn "."
  match parts with
  | [a] => a.length > 0 && a.toList.all Char.isDigit
  | [a, b] => (a.length > 0 || b.length > 0) && a.toList.all Char.isDigit
                && b.toList.all Char.isDigit
  | _ => false

def firstFloatOk : List String → Option String
  | [] => none
  | p :: ps => if floatOk p then some p else firstFloatOk ps

/-- Lines 396-415: fallback price extraction. -/
def pricePatternsLoop (r : Record) : List (List String) → Record
  | [] => r
  | ms :: ps =>
      if ms.isEmpty then pricePatternsLoop r ps
      else
        let r1 := match firstFloatOk ms with
                  | some price =>
                      { r with Regular_Price := Json.str ("$" ++ price),
                               Sale_Price := Json.str ("$" ++ price) }
                  | none => r
        if !(r1.Regular_Price == Json.str "N/A") then r1
        else pricePatternsLoop r1 ps

/-- `_parse_html_response` assembled; `none` is Python `None` (no title
resolved).  The outer `try` of the source is unreachable: every raise
happens inside `_extract_from_jsonld`'s or `_extract_from_page_data`'s
own handler. -/
def parse_html_response (tcin : String) (p : HtmlPayload) : Option Record :=
  let result := create_base_record tcin
  if p.hasErrorIndicator then
    some (create_invalid_tcin_record tcin "Product not found")
  else
    match jsonldList result p.jsonldBlocks with
    | (r1, true) => some r1
    | (r1, false) =>
        match dataBlocksLoop r1 p.dataBlocks with
        | (r2, true) => some r2
        | (r2, false) =>
            let r3 := titlePatternsLoop r2 p.titleMatches
            let r4 := pricePatternsLoop r3 p.priceMatches
            if !(r4.Title == Json.str "N/A") then some r4 else none

/-! ### Transport model and the two pipeline loops
(`get_target_api_data`, lines 46-104; `extract_from_page`, lines 106-172)

One resolution issues a sequence of `self.session.get` calls; the
environment maps the index of each call to its outcome.  The modelled
pipeline functions return the produced record together with the index
after their last request, so the number of requests a run consumed is
observable.  `time.sleep` calls do not affect the data flow; the slept
durations are modelled separately by `apiDelay`, `pageDelay` and
`rateLimitCooldown` below. -/

/-- The parts of one HTTP response the pipeline inspects: the status
code, the `response.json()` outcome (`none` for a `JSONDecodeError`),
the abstracted view of `response.text` for the HTML scans, and whether
`response.text.lower()` contains `blocked` or `access denied`. -/
structure Body where
  json : Option Json
  html : HtmlPayload
  blockedText : Bool

/-- Outcome of one `self.session.get`: a response, or a raised
`requests.RequestException` (timeouts included) carrying its message. -/
inductive FetchOutcome where
  | resp (status : Nat) (body : Body)
  | exn (msg : String)

def FetchEnv := Nat → FetchOutcome

/-- Lines 50-59: the three ranked Redsky endpoint templates. -/
def api_endpoints (tcin : String) : List String :=
  ["https://redsky.target.com/redsky_aggregations/v1/web/pdp_client_v1?key=ff457966e64d5e877fdbad070f276d18ecec4a01&tcin="
     ++ tcin ++ "&store_id=3991&pricing_store_id=3991&has_pricing_store_id=true&scheduled_delivery_store_id=3991&has_scheduled_delivery_store_id=true&is_bot=false&channel=WEB&page=%2Fp%2FA-" ++ tcin,
   "https://redsky.target.com/v3/pdp/tcin/" ++ tcin
     ++ "?key=ff457966e64d5e877fdbad070f276d18ecec4a01&channel=WEB&page=%2Fp%2FA-" ++ tcin
     ++ "&store_id=3991&pricing_store_id=3991&has_pricing_store_id=true",
   "https://redsky.target.com/v2/pdp/tcin/" ++ tcin
     ++ "?key=ff457966e64d5e877fdbad070f276d18ecec4a01&channel=WEB"]

/-- Lines 62-98: the inner endpoint loop of one API attempt round.
`(some rec, k)` models an early `return rec`; `(none, k)` means the
round fell through all endpoints.  A 404 returns the invalid record at
once; a 429 sleeps and continues with the next endpoint; any other
non-200 status and any `RequestException` also continue. -/
def apiEndpointLoop (env : FetchEnv) (tcin : String) :
    List String → Nat → Option Record × Nat
  | [], k => (none, k)
  | _ :: eps, k =>
      match env k with
      | .exn _ => apiEndpointLoop env tcin eps (k + 1)
      | .resp status body =>
          if status == 200 then
            match body.json with
            | none => apiEndpointLoop env tcin eps (k + 1)
            | some data =>
                match parse_api_response tcin data with
                | some res =>
                    if !(res.Title == Json.str "N/A") then (some res, k + 1)
                    else apiEndpointLoop env tcin eps (k + 1)
                | none => apiEndpointLoop env tcin eps (k + 1)
          else if status == 404 then
            (some (create_invalid_tcin_record tcin "Product not found"), k + 1)
          else if status == 429 then apiEndpointLoop env tcin eps (k + 1)
          else apiEndpointLoop env tcin eps (k + 1)

/-- Lines 109-172: the retry loop of `extract_from_page`, recursing on
the number of remaining rounds (`remaining = max_retries - attempt` at
entry of each round). -/
def pageLoop (env : FetchEnv) (tcin : String) (mr : Nat) :
    Nat → Nat → Nat → Record × Nat
  | 0, _, k => (create_invalid_tcin_record tcin "Max retries exceeded", k)
  | remaining + 1, attempt, k =>
      match env k with
      | .exn msg =>
          if attempt < mr - 1 then pageLoop env tcin mr remaining (attempt + 1) (k + 1)
          else (create_invalid_tcin_record tcin ("Request failed: " ++ msg), k + 1)
      | .resp status body =>
          if status == 404 then
            (create_invalid_tcin_record tcin "Product not found", k + 1)
          else if !(status == 200) then
            if attempt < mr - 1 then pageLoop env tcin mr remaining (attempt + 1) (k + 1)
            else (create_invalid_tcin_record tcin ("HTTP " ++ toString status), k + 1)
          else if body.blockedText then
            if attempt < mr - 1 then pageLoop env tcin mr remaining (attempt + 1) (k + 1)
            else (create_invalid_tcin_record tcin "Access blocked", k + 1)
          else
            match parse_html_response tcin body.html with
            | some res =>
                if !(res.Title == Json.str "N/A") then (res, k + 1)
                else if attempt < mr - 1 then
                  pageLoop env tcin mr remaining (attempt + 1) (k + 1)
                else (create_invalid_tcin_record tcin "Could not extract product data", k + 1)
            | none =>
                if attempt < mr - 1 then
                  pageLoop env tcin mr remaining (attempt + 1) (k + 1)
                else (create_invalid_tcin_record tcin "Could not extract product data", k + 1)

/-- `extract_from_page` starting after `k` already-issued requests. -/
def extract_from_page_at (env : FetchEnv) (tcin : String) (mr k : Nat) : Record × Nat :=
  pageLoop env tcin mr mr 0 k

/-- `extract_from_page` (fresh request counter). -/
def extract_from_page (env : FetchEnv) (tcin : String) (mr : Nat) : Record × Nat :=
  extract_from_page_at env tcin mr 0

/-- Lines 61-104: the outer attempt loop of `get_target_api_data`; when
every round falls through, line 104 falls back to `extract_from_page`
with the same `max_retries`. -/
def apiAttemptLoop (env : FetchEnv) (tcin : String) (mr : Nat) :
    Nat → Nat → Record × Nat
  | 0, k => extract_from_page_at env tcin mr k
  | remaining + 1, k =>
      match apiEndpointLoop env tcin (api_endpoints tcin) k with
      | (some res, k1) => (res, k1)
      | (none, k1) => apiAttemptLoop env tcin mr remaining k1

/-- `get_target_api_data`; the second component is the total number of
transport requests the resolution issued. -/
def get_target_api_data (env : FetchEnv) (tcin : String) (mr : Nat) : Record × Nat :=
  apiAttemptLoop env tcin mr mr 0

/-! ### Delay formulas (lines 64-68, 93, 113-117) -/

/-- Lines 65-68: delay before one API request within attempt round
`attempt`: `2 + random.uniform(0.5, 2.0)` plus `2 ** attempt` on retry
rounds; `jitter` is the sampled uniform value. -/
def apiDelay (attempt : Nat) (jitter : ℚ) : ℚ :=
  2 + jitter + (if attempt > 0 then (2 : ℚ) ^ attempt else 0)

/-- Lines 114-116: delay before one page-scrape request. -/
def pageDelay (attempt : Nat) (jitter : ℚ) : ℚ :=
  3 + jitter + (if attempt > 0 then (2 : ℚ) ^ attempt else 0)

/-- Line 93: cooldown slept after a 429 (`5 + random.uniform(0, 5)`). -/
def rateLimitCooldown (u : ℚ) : ℚ := 5 + u

/-! ### Frame lemmas: which record fields each phase can touch -/

/-- Fields every `_parse_api_response` phase leaves untouched for the
price claims and the record invariant: identifier, status, and (for the
non-price phases) the two price fields. -/
def Pres2 (r r' : Record) : Prop := r'.TCIN = r.TCIN ∧ r'.Status = r.Status

def Pres4 (r r' : Record) : Prop :=
  r'.TCIN = r.TCIN ∧ r'.Status = r.Status ∧
  r'.Sale_Price = r.Sale_Price ∧ r'.Regular_Price = r.Regular_Price

theorem Pres2.ptrans2 {a b c : Record} (h1 : Pres2 a b) (h2 : Pres2 b c) : Pres2 a c :=
  ⟨h2.1.trans h1.1, h2.2.trans h1.2⟩

theorem Pres4.ptrans4 {a b c : Record} (h1 : Pres4 a b) (h2 : Pres4 b c) : Pres4 a c :=
  ⟨h2.1.trans h1.1, h2.2.1.trans h1.2.1, h2.2.2.1.trans h1.2.2.1, h2.2.2.2.trans h1.2.2.2⟩

theorem Pres4.toPres2 {a b : Record} (h : Pres4 a b) : Pres2 a b := ⟨h.1, h.2.1⟩

theorem descPart_pres {r item r'} (h : descPart r item = some r') : Pres4 r r' := by
  simp only [descPart] at h
  repeat' split at h
  all_goals first
    | exact Option.noConfusion h
    | (injection h with h; subst h; exact ⟨rfl, rfl, rfl, rfl⟩)

theorem classPart_pres {r item r'} (h : classPart r item = some r') : Pres4 r r' := by
  simp only [classPart] at h
  repeat' split at h
  all_goals first
    | exact Option.noConfusion h
    | (injection h with h; subst h; exact ⟨rfl, rfl, rfl, rfl⟩)

theorem vendorPart_pres {r item r'} (h : vendorPart r item = some r') : Pres4 r r' := by
  simp only [vendorPart] at h
  repeat' split at h
  all_goals first
    | exact Option.noConfusion h
    | (injection h with h; subst h; exact ⟨rfl, rfl, rfl, rfl⟩)

theorem priceCurrentPart_pres {r pd hc r'} (h : priceCurrentPart r pd hc = some r') :
    Pres2 r r' := by
  simp only [priceCurrentPart] at h
  repeat' split at h
  all_goals first
    | exact Option.noConfusion h
    | (injection h with h; subst h; exact ⟨rfl, rfl⟩)

theorem priceRegularPart_pres {r pd hc r'} (h : priceRegularPart r pd hc = some r') :
    Pres2 r r' := by
  simp only [priceRegularPart] at h
  repeat' split at h
  all_goals first
    | exact Option.noConfusion h
    | (injection h with h; subst h; exact ⟨rfl, rfl⟩)

theorem priceMinMaxPart_pres {r pd r'} (h : priceMinMaxPart r pd = some r') :
    Pres2 r r' := by
  simp only [priceMinMaxPart] at h
  repeat' split at h
  all_goals first
    | exact Option.noConfusion h
    | (injection h with h; subst h; exact ⟨rfl, rfl⟩)

theorem ratingsCountPart_pres {r stats hr r'} (h : ratingsCountPart r stats hr = some r') :
    Pres4 r r' := by
  simp only [ratingsCountPart] at h
  repeat' split at h
  all_goals first
    | exact Option.noConfusion h
    | (injection h with h; subst h; exact ⟨rfl, rfl, rfl, rfl⟩)

theorem ratingsStarPart_pres {r stats hr r'} (h : ratingsStarPart r stats hr = some r') :
    Pres4 r r' := by
  simp only [ratingsStarPart] at h
  repeat' split at h
  all_goals first
    | exact Option.noConfusion h
    | (injection h with h; subst h; exact ⟨rfl, rfl, rfl, rfl⟩)

theorem imagesPrimaryPart_pres {r images r'} (h : imagesPrimaryPart r images = some r') :
    Pres4 r r' := by
  simp only [imagesPrimaryPart] at h
  repeat' split at h
  all_goals first
    | exact Option.noConfusion h
    | (injection h with h; subst h; exact ⟨rfl, rfl, rfl, rfl⟩)

theorem itemPhase_pres {r product r'} (h : itemPhase r product = some r') : Pres4 r r' := by
  simp only [itemPhase] at h
  split at h
  · exact Option.noConfusion h
  · injection h with h; subst h; exact ⟨rfl, rfl, rfl, rfl⟩
  · split at h
    · exact Option.noConfusion h
    · split at h
      · split at h
        · exact Option.noConfusion h
        · split at h
          · exact Option.noConfusion h
          · rename_i x1 r1 h1 x2 r2 h2
            exact ((descPart_pres h1).ptrans4 (classPart_pres h2)).ptrans4 (vendorPart_pres h)
      · injection h with h; subst h; exact ⟨rfl, rfl, rfl, rfl⟩

theorem pricePhase_pres {r product r'} (h : pricePhase r product = some r') : Pres2 r r' := by
  simp only [pricePhase] at h
  split at h
  · exact Option.noConfusion h
  · injection h with h; subst h; exact ⟨rfl, rfl⟩
  · split at h
    · exact Option.noConfusion h
    · split at h
      · injection h with h; subst h; exact ⟨rfl, rfl⟩
      · split at h
        · exact Option.noConfusion h
        · split at h
          · exact Option.noConfusion h
          · split at h
            · exact Option.noConfusion h
            · rename_i x1 r1 h1 x2 r2 h2
              exact ((priceCurrentPart_pres h1).ptrans2 (priceRegularPart_pres h2)).ptrans2
                (priceMinMaxPart_pres h)

theorem ratingsPhase_pres {r product r'} (h : ratingsPhase r product = some r') :
    Pres4 r r' := by
  simp only [ratingsPhase] at h
  split at h
  · exact Option.noConfusion h
  · injection h with h; subst h; exact ⟨rfl, rfl, rfl, rfl⟩
  · split at h
    · exact Option.noConfusion h
    · split at h
      · injection h with h; subst h; exact ⟨rfl, rfl, rfl, rfl⟩
      · split at h
        · exact Option.noConfusion h
        · injection h with h; subst h; exact ⟨rfl, rfl, rfl, rfl⟩
        · split at h
          · exact Option.noConfusion h
          · split at h
            · exact Option.noConfusion h
            · split at h
              · exact Option.noConfusion h
              · rename_i x1 r1 h1
                exact (ratingsCountPart_pres h1).ptrans4 (ratingsStarPart_pres h)

theorem assignAlternates_pres (r : Record) (alts : List Json) :
    Pres4 r (assignAlternates r alts) := by
  unfold assignAlternates
  repeat' split
  all_goals exact ⟨rfl, rfl, rfl, rfl⟩

theorem imagesFrom_pres {r images r'} (h : imagesFrom r images = some r') : Pres4 r r' := by
  simp only [imagesFrom] at h
  split at h
  · exact Option.noConfusion h
  · rename_i x1 r1 h1
    refine Pres4.ptrans4 (imagesPrimaryPart_pres h1) ?_
    split at h
    · exact Option.noConfusion h
    · injection h with h; subst h; exact ⟨rfl, rfl, rfl, rfl⟩
    · split at h
      · exact Option.noConfusion h
      · split at h
        · injection h with h; subst h; exact ⟨rfl, rfl, rfl, rfl⟩
        · split at h
          · exact Option.noConfusion h
          · injection h with h; subst h; exact assignAlternates_pres _ _

theorem imagesPhase_pres {r product r'} (h : imagesPhase r product = some r') :
    Pres4 r r' := by
  simp only [imagesPhase] at h
  repeat' split at h
  all_goals first
    | exact Option.noConfusion h
    | exact imagesFrom_pres h
    | (injection h with h; subst h; exact ⟨rfl, rfl, rfl, rfl⟩)

theorem extract_fallback_images_pres (product : Json) (r : Record) :
    Pres4 r (extract_fallback_images product r) ∧
    (extract_fallback_images product r).Title = r.Title := by
  unfold extract_fallback_images
  repeat' split
  all_goals exact ⟨⟨rfl, rfl, rfl, rfl⟩, rfl⟩

instance : LawfulBEq Json where
  eq_of_beq h := (Json.beq_iff _ _).1 h
  rfl := (Json.beq_iff _ _).2 rfl

/-- `List.any` key test agrees with `List.lookup` presence (`pyIn` vs
`pyGetItem` on the same dict). -/
theorem any_key_eq_lookup_isSome (fs : List (String × Json)) (k : String) :
    (fs.any fun kv => kv.1 == k) = (fs.lookup k).isSome := by
  induction fs with
  | nil => rfl
  | cons kv rest ih =>
      obtain ⟨key, v⟩ := kv
      by_cases hk : key = k
      · subst hk; simp [List.lookup]
      · have h1 : (key == k) = false := beq_false_of_ne hk
        have h2 : (k == key) = false := beq_false_of_ne (Ne.symm hk)
        simp [List.lookup, h1, h2, ih]

theorem lookup_some_obj_truthy {fs : List (String × Json)} {k : String} {v : Json}
    (h : fs.lookup k = some v) : (Json.obj fs).truthy = true := by
  cases fs with
  | nil => exact Option.noConfusion h
  | cons kv rest => simp [Json.truthy, List.isEmpty]

/-- Inversion for a successful `_parse_api_response`: the record carries
the input identifier, status `Success`, and a resolved title. -/
theorem parse_api_some {tcin : String} {data : Json} {r : Record}
    (h : parse_api_response tcin data = some r) :
    r.TCIN = tcin ∧ r.Status = "Success" ∧ r.Title ≠ Json.str "N/A" := by
  simp only [parse_api_response, Option.bind_eq_some] at h
  obtain ⟨product, hp, h⟩ := h
  split at h
  · exact Option.noConfusion h
  · simp only [Option.bind_eq_some] at h
    obtain ⟨r1, h1, h⟩ := h
    obtain ⟨r2, h2, h⟩ := h
    obtain ⟨r3, h3, h⟩ := h
    obtain ⟨r4, h4, h⟩ := h
    have pres : Pres2 (create_base_record tcin) r4 :=
      (((itemPhase_pres h1).toPres2.ptrans2 (pricePhase_pres h2)).ptrans2
        (ratingsPhase_pres h3).toPres2).ptrans2 (imagesPhase_pres h4).toPres2
    generalize hr5 : (if (r4.Image_1_URL == Json.str "N/A") = true then
        extract_fallback_images product r4 else r4) = r5 at h
    have pres5 : Pres2 (create_base_record tcin) r5 := by
      refine pres.ptrans2 ?_
      rw [← hr5]
      split
      · exact ((extract_fallback_images_pres product r4).1).toPres2
      · exact ⟨rfl, rfl⟩
    split at h
    · exact Option.noConfusion h
    · split at h
      · exact Option.noConfusion h
      · rename_i hsl hna
        injection h with h
        subst h
        refine ⟨pres5.1, pres5.2, fun hcon => hna ?_⟩
        rw [hcon]
        exact (Json.beq_iff _ _).2 rfl

theorem jsonldBrandPart_pres (r : Record) (d : Json) : Pres2 r (jsonldBrandPart r d) := by
  unfold jsonldBrandPart
  repeat' split
  all_goals exact ⟨rfl, rfl⟩

theorem jsonldSetPrices_pres (r : Record) (price : Json) : Pres2 r (jsonldSetPrices r price) := by
  unfold jsonldSetPrices
  repeat' split
  all_goals exact ⟨rfl, rfl⟩

theorem jsonldOffersPart_pres (r : Record) (d : Json) : Pres2 r (jsonldOffersPart r d).1 := by
  unfold jsonldOffersPart
  repeat' split
  all_goals first
    | exact ⟨rfl, rfl⟩
    | exact jsonldSetPrices_pres _ _

theorem jsonldRatingPart_pres (r : Record) (d : Json) : Pres2 r (jsonldRatingPart r d).1 := by
  unfold jsonldRatingPart
  repeat' split
  all_goals exact ⟨rfl, rfl⟩

theorem jsonldImagePart_pres (r : Record) (d : Json) : Pres2 r (jsonldImagePart r d) := by
  unfold jsonldImagePart
  repeat' split
  all_goals exact ⟨rfl, rfl⟩

theorem pres2_update_title (r : Record) (t : Json) : Pres2 r { r with Title := t } :=
  ⟨rfl, rfl⟩

theorem jsonldProduct_pres (r : Record) (d : Json) : Pres2 r (jsonldProduct r d).1 := by
  have hb : Pres2 r (jsonldBrandPart { r with Title := d.dget "name" r.Title } d) :=
    (pres2_update_title r (d.dget "name" r.Title)).ptrans2 (jsonldBrandPart_pres _ _)
  simp only [jsonldProduct]
  split
  · rename_i r2 heq
    have h2 := jsonldOffersPart_pres (jsonldBrandPart { r with Title := d.dget "name" r.Title } d) d
    rw [heq] at h2
    exact hb.ptrans2 h2
  · rename_i r2 heq
    have h2 := jsonldOffersPart_pres (jsonldBrandPart { r with Title := d.dget "name" r.Title } d) d
    rw [heq] at h2
    have base2 : Pres2 r r2 := hb.ptrans2 h2
    split
    · rename_i r3 heq3
      have h3 := jsonldRatingPart_pres r2 d
      rw [heq3] at h3
      exact base2.ptrans2 h3
    · rename_i r3 heq3
      have h3 := jsonldRatingPart_pres r2 d
      rw [heq3] at h3
      exact (base2.ptrans2 h3).ptrans2 (jsonldImagePart_pres _ _)

mutual

theorem extract_from_jsonld_pres : ∀ (r : Record) (d : Json), Pres2 r (extract_from_jsonld r d).1
  | r, .null => by simp only [extract_from_jsonld]; exact ⟨rfl, rfl⟩
  | r, .bool b => by simp only [extract_from_jsonld]; exact ⟨rfl, rfl⟩
  | r, .num n => by simp only [extract_from_jsonld]; exact ⟨rfl, rfl⟩
  | r, .str s => by simp only [extract_from_jsonld]; exact ⟨rfl, rfl⟩
  | r, .arr xs => by simp only [extract_from_jsonld]; exact jsonldList_pres r xs
  | r, .obj fs => by
      simp only [extract_from_jsonld]
      split
      · exact jsonldProduct_pres r (Json.obj fs)
      · exact ⟨rfl, rfl⟩

theorem jsonldList_pres : ∀ (r : Record) (xs : List Json), Pres2 r (jsonldList r xs).1
  | r, [] => by simp only [jsonldList]; exact ⟨rfl, rfl⟩
  | r, x :: xs => by
      simp only [jsonldList]
      split
      · rename_i r1 heq
        have h1 := extract_from_jsonld_pres r x
        rw [heq] at h1
        exact h1
      · rename_i r1 heq
        have h1 := extract_from_jsonld_pres r x
        rw [heq] at h1
        exact h1.ptrans2 (jsonldList_pres r1 xs)

end

theorem applyUpdate_pres (r : Record) (e : PageExtract) : Pres2 r (applyUpdate r e) := by
  simp only [applyUpdate]
  repeat' split
  all_goals exact ⟨rfl, rfl⟩

theorem dataBlocksLoop_pres : ∀ (r : Record) (ds : List Json), Pres2 r (dataBlocksLoop r ds).1
  | r, [] => by simp only [dataBlocksLoop]; exact ⟨rfl, rfl⟩
  | r, d :: ds => by
      simp only [dataBlocksLoop]
      split
      · exact dataBlocksLoop_pres r ds
      · rename_i e heq
        split
        · exact applyUpdate_pres r e
        · exact (applyUpdate_pres r e).ptrans2 (dataBlocksLoop_pres _ ds)

theorem titlePatternsLoop_pres : ∀ (r : Record) (ps : List (Option String)),
    Pres2 r (titlePatternsLoop r ps)
  | r, [] => by simp only [titlePatternsLoop]; exact ⟨rfl, rfl⟩
  | r, none :: ps => by simp only [titlePatternsLoop]; exact titlePatternsLoop_pres r ps
  | r, some m :: ps => by
      simp only [titlePatternsLoop]
      split
      · exact ⟨rfl, rfl⟩
      · exact titlePatternsLoop_pres r ps

theorem pricePatternsLoop_pres : ∀ (r : Record) (ps : List (List String)),
    Pres2 r (pricePatternsLoop r ps)
  | r, [] => by simp only [pricePatternsLoop]; exact ⟨rfl, rfl⟩
  | r, ms :: ps => by
      simp only [pricePatternsLoop]
      repeat' split
      all_goals first
        | exact pricePatternsLoop_pres r ps
        | exact ⟨rfl, rfl⟩
        | exact Pres2.ptrans2 ⟨rfl, rfl⟩ (pricePatternsLoop_pres _ ps)

/-- Inversion for a successful `_parse_html_response`: either the
error-indicator invalid record, or a record built from the base record
(status `Success`, identifier preserved). -/
theorem parse_html_some {tcin : String} {p : HtmlPayload} {r : Record}
    (h : parse_html_response tcin p = some r) :
    r = create_invalid_tcin_record tcin "Product not found" ∨
    (r.TCIN = tcin ∧ r.Status = "Success") := by
  simp only [parse_html_response] at h
  split at h
  · injection h with h; subst h; exact Or.inl rfl
  · split at h
    · rename_i r1 heq
      injection h with h; subst h
      have p1 := jsonldList_pres (create_base_record tcin) p.jsonldBlocks
      rw [heq] at p1
      exact Or.inr ⟨p1.1, p1.2⟩
    · rename_i r1 heq
      have p1 := jsonldList_pres (create_base_record tcin) p.jsonldBlocks
      rw [heq] at p1
      split at h
      · rename_i r2 heq2
        injection h with h; subst h
        have p2 := dataBlocksLoop_pres r1 p.dataBlocks
        rw [heq2] at p2
        exact Or.inr ⟨(p1.ptrans2 p2).1, (p1.ptrans2 p2).2⟩
      · rename_i r2 heq2
        have p2 := dataBlocksLoop_pres r1 p.dataBlocks
        rw [heq2] at p2
        split at h
        · injection h with h; subst h
          have p3 := ((p1.ptrans2 p2).ptrans2 (titlePatternsLoop_pres r2 p.titleMatches)).ptrans2
            (pricePatternsLoop_pres _ p.priceMatches)
          exact Or.inr ⟨p3.1, p3.2⟩
        · exact Option.noConfusion h

/-! ### The record invariant of the whole pipeline -/

/-- Every record the pipeline returns carries the input identifier and is
either a `Success` record with a resolved title, or an `Invalid: ...`
record with the failure marker title `TCIN not valid`. -/
def GoodRec (tcin : String) (r : Record) : Prop :=
  r.TCIN = tcin ∧
  ((r.Status = "Success" ∧ r.Title ≠ Json.str "N/A") ∨
   (∃ reason, r.Status = "Invalid: " ++ reason ∧ r.Title = Json.str "TCIN not valid"))

theorem goodRec_invalid (tcin reason : String) :
    GoodRec tcin (create_invalid_tcin_record tcin reason) :=
  ⟨rfl, Or.inr ⟨reason, rfl, rfl⟩⟩

theorem title_ne_of_guard {t : Json} (h : (!(t == Json.str "N/A")) = true) :
    t ≠ Json.str "N/A" := by
  simpa using h

theorem apiEndpointLoop_good {env : FetchEnv} {tcin : String} :
    ∀ (eps : List String) (k : Nat) {res : Record} {k1 : Nat},
    apiEndpointLoop env tcin eps k = (some res, k1) → GoodRec tcin res
  | [], k, res, k1, h => by
      simp only [apiEndpointLoop] at h
      injection h with h1 h2
      exact Option.noConfusion h1
  | _ :: eps, k, res, k1, h => by
      simp only [apiEndpointLoop] at h
      split at h
      · exact apiEndpointLoop_good eps (k + 1) h
      · split at h
        · split at h
          · exact apiEndpointLoop_good eps (k + 1) h
          · split at h
            · split at h
              · rename_i data r0 hparse htitle
                injection h with h1 h2
                injection h1 with h1
                subst h1
                obtain ⟨ht, hs, hna⟩ := parse_api_some hparse
                exact ⟨ht, Or.inl ⟨hs, hna⟩⟩
              · exact apiEndpointLoop_good eps (k + 1) h
            · exact apiEndpointLoop_good eps (k + 1) h
        · split at h
          · injection h with h1 h2
            injection h1 with h1
            subst h1
            exact goodRec_invalid tcin "Product not found"
          · split at h
            · exact apiEndpointLoop_good eps (k + 1) h
            · exact apiEndpointLoop_good eps (k + 1) h

theorem pageLoop_good {env : FetchEnv} {tcin : String} {mr : Nat} :
    ∀ (remaining attempt k : Nat),
    GoodRec tcin (pageLoop env tcin mr remaining attempt k).1
  | 0, attempt, k => goodRec_invalid tcin "Max retries exceeded"
  | remaining + 1, attempt, k => by
      simp only [pageLoop]
      split
      · split
        · exact pageLoop_good remaining (attempt + 1) (k + 1)
        · exact goodRec_invalid tcin _
      · repeat' split
        all_goals first
          | exact pageLoop_good remaining (attempt + 1) (k + 1)
          | exact goodRec_invalid tcin _
          | skip
        rename_i res hparse htitle
        rcases parse_html_some hparse with hinv | ⟨ht, hs⟩
        · subst hinv
          exact goodRec_invalid tcin "Product not found"
        · exact ⟨ht, Or.inl ⟨hs, title_ne_of_guard htitle⟩⟩

theorem apiAttemptLoop_good {env : FetchEnv} {tcin : String} {mr : Nat} :
    ∀ (remaining k : Nat), GoodRec tcin (apiAttemptLoop env tcin mr remaining k).1
  | 0, k => pageLoop_good mr 0 k
  | remaining + 1, k => by
      simp only [apiAttemptLoop]
      split
      · rename_i res k1 heq
        exact apiEndpointLoop_good _ _ heq
      · exact apiAttemptLoop_good remaining _

/-- The pipeline invariant: every record `get_target_api_data` returns. -/
theorem get_target_api_data_good (env : FetchEnv) (tcin : String) (mr : Nat) :
    GoodRec tcin (get_target_api_data env tcin mr).1 :=
  apiAttemptLoop_good mr 0

/-! ### Helper facts about the fixed strings of the record schema -/

theorem invalid_prefix_ne_success (s : String) : "Invalid: " ++ s ≠ "Success" := by
  intro h
  have h2 := congrArg String.length h
  rw [String.length_append] at h2
  rw [show ("Invalid: ").length = 9 from rfl, show ("Success").length = 7 from rfl] at h2
  omega

theorem dollar_append_ne (s : String) : "$" ++ s ≠ "N/A" := by
  obtain ⟨sd⟩ := s
  intro h
  have h3 : Char.ofNat 36 :: sd = ['N', '/', 'A'] := congrArg String.data h
  simp at h3

/-! ### Concrete environments and payloads used by the claim theorems -/

def emptyHtml : HtmlPayload :=
  { hasErrorIndicator := false, jsonldBlocks := [], dataBlocks := [],
    titleMatches := [], priceMatches := [] }

def emptyBody : Body := { json := none, html := emptyHtml, blockedText := false }

/-- Transport behaviour answering every request with HTTP 404. -/
def env404 : FetchEnv := fun _ => .resp 404 emptyBody

/-- Transport behaviour answering every request with HTTP 429. -/
def env429 : FetchEnv := fun _ => .resp 429 emptyBody

/-- Transport behaviour raising `requests.RequestException` on every
request. -/
def envExn : FetchEnv := fun _ => .exn "boom"

/-- The JSON-LD Product block of the C6 scenario. -/
def widgetBlock : Json :=
  Json.obj [("@type", Json.str "Product"), ("name", Json.str "Widget"),
            ("offers", Json.obj [("price", Json.str "19.99")]),
            ("image", Json.arr [Json.str "u1", Json.str "u2"])]

/-- The record the widget block extracts into (on top of the base record). -/
def widgetRecord (tcin : String) : Record :=
  { create_base_record tcin with
      Title := Json.str "Widget"
      Regular_Price := Json.str "$19.99"
      Sale_Price := Json.str "$19.99"
      Image_1_URL := Json.str "u1"
      Image_2_URL := Json.str "u2" }

/-- A JSON-LD Product block appearing before the widget block. -/
def otherBlock : Json :=
  Json.obj [("@type", Json.str "Product"), ("name", Json.str "Other Gadget")]

/-- A page whose JSON-LD scan yields another Product block before the
widget block. -/
def c6cexPayload : HtmlPayload :=
  { hasErrorIndicator := false, jsonldBlocks := [otherBlock, widgetBlock],
    dataBlocks := [], titleMatches := [], priceMatches := [] }

/-- An embedded data block from which only a brand (no title) can be
extracted. -/
def brandOnlyBlock : Json := Json.obj [("brand", Json.str "LeakedBrand")]

/-- A page whose embedded-data strategy extracts only a brand and whose
raw title patterns later match a valid title. -/
def c4payload : HtmlPayload :=
  { hasErrorIndicator := false, jsonldBlocks := [], dataBlocks := [brandOnlyBlock],
    titleMatches := [some "A Wonderful Product Name", none, none], priceMatches := [] }

/-- The price object of the C5 counterexample: it contains
`current_retail = 15` and `regular_retail = 20` but also a price range. -/
def c5cexPrice : List (String × Json) :=
  [("current_retail", Json.num 15), ("regular_retail", Json.num 20),
   ("current_retail_min", Json.num 1), ("current_retail_max", Json.num 2)]

def c5cexProduct : Json :=
  Json.obj [("item", Json.obj [("product_description", Json.obj [("title", Json.str "Gadget")])]),
            ("price", Json.obj c5cexPrice)]

def c5cexData : Json := Json.obj [("product", c5cexProduct)]

/-- The same payload without the min/max pair (C5 witness). -/
def c5wPrice : List (String × Json) :=
  [("current_retail", Json.num 15), ("regular_retail", Json.num 20)]

def c5wProduct : Json :=
  Json.obj [("item", Json.obj [("product_description", Json.obj [("title", Json.str "Gadget")])]),
            ("price", Json.obj c5wPrice)]

def c5wData : Json := Json.obj [("product", c5wProduct)]

def c5wRecord : Record :=
  { create_base_record "t" with
      Title := Json.str "Gadget"
      Sale_Price := Json.str "$15"
      Regular_Price := Json.str "$20" }

/-- The price object of the C10 counterexample: `current_retail` with no
`regular_retail`, plus a min/max pair that overwrites `Sale_Price`. -/
def c10cexPrice : List (String × Json) :=
  [("current_retail", Json.num 10), ("current_retail_min", Json.num 5),
   ("current_retail_max", Json.num 7)]

def c10cexProduct : Json :=
  Json.obj [("item", Json.obj [("product_description", Json.obj [("title", Json.str "Gadget")])]),
            ("price", Json.obj c10cexPrice)]

def c10cexData : Json := Json.obj [("product", c10cexProduct)]

def c10cexRecord : Record :=
  { create_base_record "t" with
      Title := Json.str "Gadget"
      Sale_Price := Json.str "$5 - $7"
      Regular_Price := Json.str "$10" }

/-- C10 witness payload: `current_retail = 7` alone. -/
def c10wProduct : Json :=
  Json.obj [("item", Json.obj [("product_description", Json.obj [("title", Json.str "Gadget")])]),
            ("price", Json.obj [("current_retail", Json.num 7)])]

def c10wData : Json := Json.obj [("product", c10wProduct)]

/-- C4-amended witness payloads: same JSON-LD blocks, arbitrary later
strategies. -/
def c4q : HtmlPayload :=
  { hasErrorIndicator := false, jsonldBlocks := [widgetBlock],
    dataBlocks := [brandOnlyBlock],
    titleMatches := [some "A Completely Different Name", none, none],
    priceMatches := [["129.99"]] }

def c4p : HtmlPayload :=
  { hasErrorIndicator := false, jsonldBlocks := [widgetBlock], dataBlocks := [],
    titleMatches := [], priceMatches := [] }

/-- C6-amended witness payload: the widget block is the first (only)
JSON-LD block. -/
def c6wPayload : HtmlPayload :=
  { hasErrorIndicator := false, jsonldBlocks := [widgetBlock], dataBlocks := [],
    titleMatches := [], priceMatches := [] }

/-- C7 scenario: the third request returns a parseable structured-API
payload resolving a title. -/
def c7data : Json :=
  Json.obj [("product", Json.obj
    [("item", Json.obj [("product_description", Json.obj [("title", Json.str "Widget X")])])])]

def c7body : Body := { json := some c7data, html := emptyHtml, blockedText := false }

def env7 : FetchEnv := fun k => if k == 2 then .resp 200 c7body else .exn "boom"

def c7record : Record := { create_base_record "t" with Title := Json.str "Widget X" }

/-! ### Inversion of `_parse_api_response` down to the pricing section -/

theorem parse_api_decomp {tcin : String} {data : Json} {r : Record}
    (h : parse_api_response tcin data = some r) :
    ∃ product r1 r2, productOf data = some product ∧
      itemPhase (create_base_record tcin) product = some r1 ∧
      pricePhase r1 product = some r2 ∧
      r.Sale_Price = r2.Sale_Price ∧ r.Regular_Price = r2.Regular_Price := by
  simp only [parse_api_response, Option.bind_eq_some] at h
  obtain ⟨product, hp, h⟩ := h
  split at h
  · exact Option.noConfusion h
  · simp only [Option.bind_eq_some] at h
    obtain ⟨r1, h1, h⟩ := h
    obtain ⟨r2, h2, h⟩ := h
    obtain ⟨r3, h3, h⟩ := h
    obtain ⟨r4, h4, h⟩ := h
    have pres : Pres4 r2 r4 := (ratingsPhase_pres h3).ptrans4 (imagesPhase_pres h4)
    generalize hr5 : (if (r4.Image_1_URL == Json.str "N/A") = true then
        extract_fallback_images product r4 else r4) = r5 at h
    have pres5 : Pres4 r2 r5 := by
      refine pres.ptrans4 ?_
      rw [← hr5]
      split
      · exact (extract_fallback_images_pres product r4).1
      · exact ⟨rfl, rfl, rfl, rfl⟩
    split at h
    · exact Option.noConfusion h
    · split at h
      · exact Option.noConfusion h
      · injection h with h
        subst h
        exact ⟨product, r1, r2, hp, h1, h2, pres5.2.2.1, pres5.2.2.2⟩

/-- The min/max range is skipped when the `current_retail_min` and
`current_retail_max` keys are not both present. -/
theorem priceMinMaxPart_skip {pf : List (String × Json)} (r : Record)
    (hmm : ¬((List.lookup "current_retail_min" pf).isSome ∧
             (List.lookup "current_retail_max" pf).isSome)) :
    priceMinMaxPart r (Json.obj pf) = some r := by
  cases hmin : List.lookup "current_retail_min" pf with
  | none =>
      have hanyMin : (pf.any fun kv => kv.1 == "current_retail_min") = false := by
        rw [any_key_eq_lookup_isSome, hmin]; rfl
      simp only [priceMinMaxPart, Json.pyIn, hanyMin]
  | some v =>
      have hmax : List.lookup "current_retail_max" pf = none := by
        cases hmax : List.lookup "current_retail_max" pf with
        | none => rfl
        | some w => exact absurd ⟨by rw [hmin]; rfl, by rw [hmax]; rfl⟩ hmm
      have hanyMin : (pf.any fun kv => kv.1 == "current_retail_min") = true := by
        rw [any_key_eq_lookup_isSome, hmin]; rfl
      have hanyMax : (pf.any fun kv => kv.1 == "current_retail_max") = false := by
        rw [any_key_eq_lookup_isSome, hmax]; rfl
      simp only [priceMinMaxPart, Json.pyIn, hanyMin, hanyMax]

/-- Pricing section outcome for a price dict containing
`current_retail = 15` and `regular_retail = 20` and no min/max pair. -/
theorem pricePhase_eval_c5 {r1 : Record} {pfs pf : List (String × Json)} {r2 : Record}
    (hprice : List.lookup "price" pfs = some (Json.obj pf))
    (hcur : List.lookup "current_retail" pf = some (Json.num 15))
    (hreg : List.lookup "regular_retail" pf = some (Json.num 20))
    (hmm : ¬((List.lookup "current_retail_min" pf).isSome ∧
             (List.lookup "current_retail_max" pf).isSome))
    (h : pricePhase r1 (Json.obj pfs) = some r2) :
    r2.Sale_Price = Json.str "$15" ∧ r2.Regular_Price = Json.str "$20" := by
  have hanyP : (pfs.any fun kv => kv.1 == "price") = true := by
    rw [any_key_eq_lookup_isSome, hprice]; rfl
  have hanyC : (pf.any fun kv => kv.1 == "current_retail") = true := by
    rw [any_key_eq_lookup_isSome, hcur]; rfl
  have hanyR : (pf.any fun kv => kv.1 == "regular_retail") = true := by
    rw [any_key_eq_lookup_isSome, hreg]; rfl
  have htr : (Json.obj pf).truthy = true := lookup_some_obj_truthy hcur
  have hc : priceCurrentPart r1 (Json.obj pf) true =
      some { r1 with Sale_Price := Json.str "$15" } := by
    simp only [priceCurrentPart, Json.pyGetItem, hcur, if_true]
    rfl
  have hr : priceRegularPart { r1 with Sale_Price := Json.str "$15" } (Json.obj pf) true =
      some { r1 with Sale_Price := Json.str "$15", Regular_Price := Json.str "$20" } := by
    simp only [priceRegularPart, Json.pyIn, hanyR, Json.pyGetItem, hreg]
    rfl
  have hmmx := priceMinMaxPart_skip
    { r1 with Sale_Price := Json.str "$15", Regular_Price := Json.str "$20" } hmm
  simp only [pricePhase, Json.pyIn, hanyP, Json.pyGetItem, hprice, htr, Bool.not_true,
    hanyC, hc, hr, hmmx, if_true] at h
  injection h with h
  subst h
  exact ⟨rfl, rfl⟩

/-- Pricing section outcome for a price dict containing a truthy
`current_retail`, no `regular_retail` key and no min/max pair: the
regular price is copied from the sale price. -/
theorem pricePhase_eval_c10 {r1 : Record} {pfs pf : List (String × Json)} {v : Json}
    {r2 : Record}
    (hprice : List.lookup "price" pfs = some (Json.obj pf))
    (hcur : List.lookup "current_retail" pf = some v)
    (hv : v.truthy = true)
    (hreg : List.lookup "regular_retail" pf = none)
    (hmm : ¬((List.lookup "current_retail_min" pf).isSome ∧
             (List.lookup "current_retail_max" pf).isSome))
    (h : pricePhase r1 (Json.obj pfs) = some r2) :
    r2.Sale_Price = Json.str ("$" ++ v.pyStr) ∧ r2.Regular_Price = r2.Sale_Price := by
  have hanyP : (pfs.any fun kv => kv.1 == "price") = true := by
    rw [any_key_eq_lookup_isSome, hprice]; rfl
  have hanyC : (pf.any fun kv => kv.1 == "current_retail") = true := by
    rw [any_key_eq_lookup_isSome, hcur]; rfl
  have hanyR : (pf.any fun kv => kv.1 == "regular_retail") = false := by
    rw [any_key_eq_lookup_isSome, hreg]; rfl
  have htr : (Json.obj pf).truthy = true := lookup_some_obj_truthy hcur
  have hc : priceCurrentPart r1 (Json.obj pf) true =
      some { r1 with Sale_Price := Json.str ("$" ++ v.pyStr) } := by
    simp only [priceCurrentPart, Json.pyGetItem, hcur, hv, if_true]
  have hr : priceRegularPart { r1 with Sale_Price := Json.str ("$" ++ v.pyStr) }
      (Json.obj pf) true =
      some { r1 with Sale_Price := Json.str ("$" ++ v.pyStr),
                     Regular_Price := Json.str ("$" ++ v.pyStr) } := by
    simp only [priceRegularPart, Json.pyIn, hanyR, if_true]
  have hmmx := priceMinMaxPart_skip
    { r1 with Sale_Price := Json.str ("$" ++ v.pyStr),
              Regular_Price := Json.str ("$" ++ v.pyStr) } hmm
  simp only [pricePhase, Json.pyIn, hanyP, Json.pyGetItem, hprice, htr, Bool.not_true,
    hanyC, hc, hr, hmmx, if_true] at h
  injection h with h
  subst h
  exact ⟨rfl, rfl⟩

/-! ### The claims -/

/-- C1 (counterexample): the claimed equivalence `Status = "Success" ↔
Title ≠ "N/A"` fails on the code: a 404 on the first request yields the
invalid record, whose `Title` is `"TCIN not valid"` (not the sentinel)
while its `Status` is `"Invalid: Product not found"`. -/
theorem C1_counterexample :
    ¬(((get_target_api_data env404 "t" 3).1.Status = "Success") ↔
      (get_target_api_data env404 "t" 3).1.Title ≠ Json.str "N/A") := by
  decide

/-- C1 (amended): for every record returned by the pipeline, `Status =
"Success"` implies `Title ≠ "N/A"`; a record with any other status
carries the failure marker title `"TCIN not valid"` (which is also not
the sentinel), so the claimed equivalence holds only in the
success-to-non-sentinel direction. -/
theorem C1_amended_status_title_marker (env : FetchEnv) (tcin : String) (mr : Nat) :
    ((get_target_api_data env tcin mr).1.Status = "Success" →
      (get_target_api_data env tcin mr).1.Title ≠ Json.str "N/A") ∧
    ((get_target_api_data env tcin mr).1.Status ≠ "Success" →
      (get_target_api_data env tcin mr).1.Title = Json.str "TCIN not valid") := by
  obtain ⟨-, hca⟩ := get_target_api_data_good env tcin mr
  rcases hca with ⟨hs, hna⟩ | ⟨reason, hs, hmark⟩
  · exact ⟨fun _ => hna, fun hcon => absurd hs hcon⟩
  · refine ⟨fun hsucc => ?_, fun _ => hmark⟩
    rw [hs] at hsucc
    exact absurd hsucc (invalid_prefix_ne_success reason)

/-- C2: for every transport behaviour (any sequence of status codes,
bodies and raised transport exceptions) the pipeline entry point is a
total function returning a record that carries the input identifier, and
every failure mode is encoded in the returned `Status`: it is either
`"Success"` or `"Invalid: "` followed by a reason. -/
theorem C2_never_throws_status_encodes_failures (env : FetchEnv) (tcin : String) (mr : Nat) :
    (get_target_api_data env tcin mr).1.TCIN = tcin ∧
    ((get_target_api_data env tcin mr).1.Status = "Success" ∨
     ∃ reason, (get_target_api_data env tcin mr).1.Status = "Invalid: " ++ reason) := by
  obtain ⟨ht, hca⟩ := get_target_api_data_good env tcin mr
  refine ⟨ht, ?_⟩
  rcases hca with ⟨hs, -⟩ | ⟨reason, hs, -⟩
  · exact Or.inl hs
  · exact Or.inr ⟨reason, hs⟩

/-- C3: a not-found response (HTTP 404) on the first request makes the
pipeline return the `Invalid: Product not found` record at once: exactly
one transport request is made, no remaining endpoint or retry is
attempted. -/
theorem C3_notfound_short_circuit (env : FetchEnv) (tcin : String) (mr : Nat) (body : Body)
    (hmr : 0 < mr) (h0 : env 0 = .resp 404 body) :
    get_target_api_data env tcin mr =
      (create_invalid_tcin_record tcin "Product not found", 1) := by
  obtain ⟨mr', rfl⟩ : ∃ mr', mr = mr' + 1 := ⟨mr - 1, by omega⟩
  simp [get_target_api_data, apiAttemptLoop, api_endpoints, apiEndpointLoop, h0]

theorem C3_notfound_short_circuit_witness :
    0 < 3 ∧ get_target_api_data env404 "t" 3 =
      (create_invalid_tcin_record "t" "Product not found", 1) :=
  ⟨by decide, C3_notfound_short_circuit env404 "t" 3 emptyBody (by decide) rfl⟩

/-- C4 (counterexample): the strategy chain merges fields across
strategies.  On `c4payload` the embedded-data strategy extracts only a
brand (its result resolves no title, hence is unacceptable), yet the
returned record combines that brand with the title produced by the
later raw-pattern strategy. -/
theorem C4_counterexample :
    extract_from_page_data brandOnlyBlock =
      some { title := none, brand := some (Json.str "LeakedBrand") } ∧
    parse_html_response "t" c4payload =
      some { create_base_record "t" with
              Title := Json.str "A Wonderful Product Name"
              Brand := Json.str "LeakedBrand" } := by
  set_option maxRecDepth 4000 in with_unfolding_all decide

/-- C4 (amended): the chain does stop at the first succeeding strategy:
when the JSON-LD strategy accepts a block, the returned record is
entirely determined by the error check and the JSON-LD blocks — two
pages agreeing on those but differing arbitrarily in their embedded data
blocks, title matches and price matches resolve identically.  However,
fields written by an earlier strategy that failed to resolve a title
persist in the shared record and can be merged into the returned record
(see the counterexample). -/
theorem C4_amended_chain_stops_at_jsonld (tcin : String) (p q : HtmlPayload)
    (he : p.hasErrorIndicator = false) (he' : q.hasErrorIndicator = false)
    (hb : p.jsonldBlocks = q.jsonldBlocks)
    (hacc : (jsonldList (create_base_record tcin) p.jsonldBlocks).2 = true) :
    parse_html_response tcin p = parse_html_response tcin q := by
  have hacc' : (jsonldList (create_base_record tcin) q.jsonldBlocks).2 = true := hb ▸ hacc
  cases hJL : jsonldList (create_base_record tcin) q.jsonldBlocks with
  | mk rr b =>
      cases b with
      | false => rw [hJL] at hacc'; exact absurd hacc' (by simp)
      | true =>
          have hJLp : jsonldList (create_base_record tcin) p.jsonldBlocks = (rr, true) := by
            rw [hb]; exact hJL
          simp [parse_html_response, he, he', hJLp, hJL]

theorem C4_amended_chain_stops_at_jsonld_witness :
    parse_html_response "t" c4p = parse_html_response "t" c4q :=
  C4_amended_chain_stops_at_jsonld "t" c4p c4q rfl rfl rfl (by with_unfolding_all decide)

/-- C5 (counterexample): the claim fails as stated.  `c5cexData` is a
structured-API payload whose price object contains `current_retail = 15`
and `regular_retail = 20`, yet normalization yields
`Sale_Price = "$1 - $2"` (not `"$15"`), because a `current_retail_min` /
`current_retail_max` pair in the same price object overwrites
`Sale_Price` afterwards. -/
theorem C5_counterexample :
    productOf c5cexData = some c5cexProduct ∧
    Json.pyGetItem c5cexProduct "price" = some (Json.obj c5cexPrice) ∧
    List.lookup "current_retail" c5cexPrice = some (Json.num 15) ∧
    List.lookup "regular_retail" c5cexPrice = some (Json.num 20) ∧
    parse_api_response "t" c5cexData =
      some { create_base_record "t" with
              Title := Json.str "Gadget"
              Sale_Price := Json.str "$1 - $2"
              Regular_Price := Json.str "$20" } ∧
    (parse_api_response "t" c5cexData).map Record.Sale_Price ≠ some (Json.str "$15") := by
  with_unfolding_all decide

/-- C5 (amended): for every structured-API payload whose price object
contains `current_retail = 15` and `regular_retail = 20` and does not
also contain both `current_retail_min` and `current_retail_max`, any
record produced by `_parse_api_response` has `Sale_Price = "$15"` and
`Regular_Price = "$20"` — the two are never swapped. -/
theorem C5_amended_price_mapping (tcin : String) (data product : Json)
    (pf : List (String × Json)) (r : Record)
    (hprod : productOf data = some product)
    (hprice : product.pyGetItem "price" = some (Json.obj pf))
    (hcur : List.lookup "current_retail" pf = some (Json.num 15))
    (hreg : List.lookup "regular_retail" pf = some (Json.num 20))
    (hmm : ¬((List.lookup "current_retail_min" pf).isSome ∧
             (List.lookup "current_retail_max" pf).isSome))
    (h : parse_api_response tcin data = some r) :
    r.Sale_Price = Json.str "$15" ∧ r.Regular_Price = Json.str "$20" := by
  obtain ⟨product', r1, r2, hp', h1, h2, hS, hR⟩ := parse_api_decomp h
  rw [hprod] at hp'
  injection hp' with hp'
  subst hp'
  cases product with
  | obj pfs =>
      simp only [Json.pyGetItem] at hprice
      obtain ⟨hS2, hR2⟩ := pricePhase_eval_c5 hprice hcur hreg hmm h2
      exact ⟨hS.trans hS2, hR.trans hR2⟩
  | null => exact Option.noConfusion hprice
  | bool b => exact Option.noConfusion hprice
  | num n => exact Option.noConfusion hprice
  | str s => exact Option.noConfusion hprice
  | arr xs => exact Option.noConfusion hprice

theorem C5_amended_price_mapping_witness :
    c5wRecord.Sale_Price = Json.str "$15" ∧ c5wRecord.Regular_Price = Json.str "$20" :=
  C5_amended_price_mapping "t" c5wData c5wProduct c5wPrice c5wRecord rfl rfl rfl rfl
    (by decide) (by with_unfolding_all decide)

/-- C6 (counterexample): the claim fails as stated.  `c6cexPayload`
contains the described JSON-LD Product block (`name = "Widget"`,
`offers.price = "19.99"`, `image = ["u1","u2"]`), but extraction yields
`Title = "Other Gadget"`: an earlier accepted Product block shadows it. -/
theorem C6_counterexample :
    widgetBlock ∈ c6cexPayload.jsonldBlocks ∧
    parse_html_response "t" c6cexPayload =
      some { create_base_record "t" with Title := Json.str "Other Gadget" } ∧
    (parse_html_response "t" c6cexPayload).map Record.Title ≠ some (Json.str "Widget") := by
  with_unfolding_all decide

/-- C6 (amended): for every markup payload without an error-page
indicator whose FIRST JSON-LD block is the described Product block,
extraction yields `Title = "Widget"`, `Regular_Price = Sale_Price =
"$19.99"`, `Image_1_URL = "u1"`, `Image_2_URL = "u2"` and `Image_3_URL`
left as the sentinel. -/
theorem C6_amended_first_jsonld_block (tcin : String) (p : HtmlPayload) (rest : List Json)
    (he : p.hasErrorIndicator = false)
    (hb : p.jsonldBlocks = widgetBlock :: rest) :
    ∃ r, parse_html_response tcin p = some r ∧
      r.Title = Json.str "Widget" ∧
      r.Regular_Price = Json.str "$19.99" ∧ r.Sale_Price = Json.str "$19.99" ∧
      r.Image_1_URL = Json.str "u1" ∧ r.Image_2_URL = Json.str "u2" ∧
      r.Image_3_URL = Json.str "N/A" := by
  refine ⟨widgetRecord tcin, ?_, rfl, rfl, rfl, rfl, rfl, rfl⟩
  have hj : jsonldList (create_base_record tcin) (widgetBlock :: rest) =
      (widgetRecord tcin, true) := by
    with_unfolding_all exact rfl
  simp [parse_html_response, he, hb, hj]

theorem C6_amended_first_jsonld_block_witness :
    ∃ r, parse_html_response "t" c6wPayload = some r ∧
      r.Title = Json.str "Widget" ∧
      r.Regular_Price = Json.str "$19.99" ∧ r.Sale_Price = Json.str "$19.99" ∧
      r.Image_1_URL = Json.str "u1" ∧ r.Image_2_URL = Json.str "u2" ∧
      r.Image_3_URL = Json.str "N/A" :=
  C6_amended_first_jsonld_block "t" c6wPayload [] rfl rfl

/-- C7: when the first two requests raise transport errors and the third
returns HTTP 200 with a parseable payload from which a title is
extracted, the pipeline (with `max_retries = 3`) returns exactly the
record parsed from that third payload, a `Success` record, after three
requests. -/
theorem C7_success_on_third_fetch (env : FetchEnv) (tcin m1 m2 : String) (body : Body)
    (data : Json) (rec : Record)
    (h0 : env 0 = .exn m1) (h1 : env 1 = .exn m2) (h2 : env 2 = .resp 200 body)
    (hj : body.json = some data) (hp : parse_api_response tcin data = some rec) :
    get_target_api_data env tcin 3 = (rec, 3) ∧ rec.Status = "Success" := by
  obtain ⟨-, hs, hna⟩ := parse_api_some hp
  have hbeq : (rec.Title == Json.str "N/A") = false := by simpa using hna
  refine ⟨?_, hs⟩
  simp [get_target_api_data, apiAttemptLoop, api_endpoints, apiEndpointLoop,
    h0, h1, h2, hj, hp, hbeq]

theorem C7_success_on_third_fetch_witness :
    get_target_api_data env7 "t" 3 = (c7record, 3) ∧ c7record.Status = "Success" :=
  C7_success_on_third_fetch env7 "t" "boom" "boom" c7body c7data c7record rfl rfl rfl rfl
    (by with_unfolding_all decide)

/-- C8: ignoring the random jitter term, the wait computed before retry
round `n + 1` is strictly greater than the wait before round `n`, for
every `n` below the default `max_retries = 3`, in both the API loop
(`2 + jitter + 2^attempt` on retries) and the page-scrape loop
(`3 + jitter + 2^attempt` on retries). -/
theorem C8_backoff_monotone (n : Nat) (j : ℚ) (hn : n < 3) :
    apiDelay n j < apiDelay (n + 1) j ∧ pageDelay n j < pageDelay (n + 1) j := by
  interval_cases n <;> constructor <;> norm_num [apiDelay, pageDelay]

theorem C8_backoff_monotone_witness :
    apiDelay 0 1 < apiDelay 1 1 ∧ pageDelay 0 1 < pageDelay 1 1 :=
  C8_backoff_monotone 0 1 (by decide)

/-- C9 (counterexample): the rate-limit cooldown is not strictly longer
than the ordinary backoff delay: before the third attempt round
(`attempt = 2`, jitter at its minimum `1/2`), the ordinary backoff is
`6.5` seconds while the cooldown can be as short as `5` seconds. -/
theorem C9_counterexample : ¬(rateLimitCooldown 0 > apiDelay 2 (1 / 2)) := by
  norm_num [apiDelay, rateLimitCooldown]

/-- C9 (amended): the cooldown slept after a 429 (`5 + uniform(0,5)`) is
strictly longer than the first-round backoff (`2 + jitter ≤ 4`), though
not than every later round's backoff; and a rate-limited outcome
consumes its try against the fixed request budget exactly like a
transport error: under an all-429 behaviour the pipeline terminates
after the same 12 requests (9 API tries plus 3 page tries for
`max_retries = 3`) as under an all-exception behaviour, returning an
`Invalid` record. -/
theorem C9_amended_cooldown_and_budget (u j : ℚ)
    (hu : 0 ≤ u) (hj1 : 1 / 2 ≤ j) (hj2 : j ≤ 2) :
    apiDelay 0 j < rateLimitCooldown u ∧
    get_target_api_data env429 "t" 3 = (create_invalid_tcin_record "t" "HTTP 429", 12) ∧
    (get_target_api_data envExn "t" 3).2 = 12 := by
  refine ⟨?_, rfl, rfl⟩
  simp only [apiDelay, rateLimitCooldown]
  norm_num
  linarith

theorem C9_amended_cooldown_and_budget_witness :
    apiDelay 0 1 < rateLimitCooldown 0 ∧
    get_target_api_data env429 "t" 3 = (create_invalid_tcin_record "t" "HTTP 429", 12) ∧
    (get_target_api_data envExn "t" 3).2 = 12 :=
  C9_amended_cooldown_and_budget 0 1 (by norm_num) (by norm_num) (by norm_num)

/-- C10 (counterexample): the implicit claim fails as stated.  In
`c10cexData` the price object contains `current_retail = 10` and no
`regular_retail`, yet the returned record has
`Regular_Price = "$10" ≠ Sale_Price = "$5 - $7"`: the min/max range
overwrites `Sale_Price` after `Regular_Price` was copied from it. -/
theorem C10_counterexample :
    (List.lookup "current_retail" c10cexPrice).isSome ∧
    List.lookup "regular_retail" c10cexPrice = none ∧
    parse_api_response "t" c10cexData = some c10cexRecord ∧
    c10cexRecord.Regular_Price ≠ c10cexRecord.Sale_Price := by
  with_unfolding_all decide

/-- C10 (amended): whenever the price object contains a truthy
`current_retail`, no `regular_retail` key, and not both
`current_retail_min` and `current_retail_max`, the returned record's
`Regular_Price` equals its `Sale_Price` (`"$" ++ current_retail`), and
neither remains the sentinel. -/
theorem C10_amended_regular_defaults_to_sale (tcin : String) (data product v : Json)
    (pf : List (String × Json)) (r : Record)
    (hprod : productOf data = some product)
    (hprice : product.pyGetItem "price" = some (Json.obj pf))
    (hcur : List.lookup "current_retail" pf = some v)
    (hv : v.truthy = true)
    (hreg : List.lookup "regular_retail" pf = none)
    (hmm : ¬((List.lookup "current_retail_min" pf).isSome ∧
             (List.lookup "current_retail_max" pf).isSome))
    (h : parse_api_response tcin data = some r) :
    r.Regular_Price = r.Sale_Price ∧ r.Sale_Price = Json.str ("$" ++ v.pyStr) ∧
    r.Regular_Price ≠ Json.str "N/A" := by
  obtain ⟨product', r1, r2, hp', h1, h2, hS, hR⟩ := parse_api_decomp h
  rw [hprod] at hp'
  injection hp' with hp'
  subst hp'
  cases product with
  | obj pfs =>
      simp only [Json.pyGetItem] at hprice
      obtain ⟨hS2, hR2⟩ := pricePhase_eval_c10 hprice hcur hv hreg hmm h2
      refine ⟨by rw [hR, hS, hR2], hS.trans hS2, ?_⟩
      rw [hR, hR2, hS2]
      intro hcon
      injection hcon with hcon
      exact dollar_append_ne v.pyStr hcon
  | null => exact Option.noConfusion hprice
  | bool b => exact Option.noConfusion hprice
  | num n => exact Option.noConfusion hprice
  | str s => exact Option.noConfusion hprice
  | arr xs => exact Option.noConfusion hprice

theorem C10_amended_regular_defaults_to_sale_witness :
    ∃ r, parse_api_response "t" c10wData = some r ∧
      (r.Regular_Price = r.Sale_Price ∧ r.Sale_Price = Json.str ("$" ++ (Json.num 7).pyStr) ∧
       r.Regular_Price ≠ Json.str "N/A") := by
  refine ⟨{ create_base_record "t" with
              Title := Json.str "Gadget"
              Sale_Price := Json.str "$7"
              Regular_Price := Json.str "$7" }, ?_, ?_⟩
  · with_unfolding_all decide
  · exact C10_amended_regular_defaults_to_sale "t" c10wData c10wProduct (Json.num 7)
      [("current_retail", Json.num 7)] _ rfl rfl rfl rfl rfl (by decide)
      (by with_unfolding_all decide)

end App
